import Mathlib

/-!
Shallow embedding of `src/main.py` (discord-images-downloader) together with
proofs about the behaviour of its two components, the scroll driver
(`scroll_to_bottom`) and the downloader (`download_images`), and of the
driver-setup path (`setup_driver` / `main`).

Modelling conventions:
* A call into the browser or the HTTP client that may raise an exception is
  modelled with `Except Unit`; a propagated (uncaught) exception is recorded
  by a `raised` / aborted flag in the result.
* Wall-clock time is a rational number of seconds.  `time.sleep(d)` advances
  the clock by exactly `d`; all other operations are instantaneous (script
  execution time and HTTP latency are not modelled).  `time.time()` reads the
  clock, and the clock is `0` when `scroll_to_bottom` is entered, so the
  `start_time` recorded at line 55 of `main.py` is `0`.
* Fields marked "ghost" are observers added only to state properties; they
  never influence control flow.
-/

namespace DiscordDL

/-- Page behaviour visible to `scroll_to_bottom`: `heights i` is the result of
the `i`-th `document.body.scrollHeight` script (index `0` is the measurement
taken before the loop at line 54, index `i ≥ 1` the one in iteration `i`), and
`endFound i` is the result of the `find_elements` query for the
`noMoreMessages` indicator in iteration `i` (`true` means a matching element
is present in the DOM).  `Except.error` models the call raising. -/
structure ScrollEnv where
  heights : Nat → Except Unit Nat
  endFound : Nat → Except Unit Bool

/-- State of the scroll loop of `scroll_to_bottom` (lines 54-84). -/
structure ScrollState where
  /-- the Python local `last_height`. -/
  lastHeight : Nat
  /-- current wall-clock time; `0` at entry of `scroll_to_bottom`. -/
  clock : ℚ
  /-- the Python local `scroll_attempts`. -/
  attempts : Nat
  /-- ghost: clock value at the first unchanged height measurement. -/
  firstStall : Option ℚ
  /-- ghost: number of caught (logged) `find_elements` exceptions. -/
  loggedQueryErrors : Nat
  deriving DecidableEq

/-- Result of `scroll_to_bottom`: the final loop state, and whether an
exception escaped the function (aborting it). -/
structure ScrollResult where
  state : ScrollState
  raised : Bool
  deriving DecidableEq

/-- The `while scroll_attempts < max_scrolls` loop of `scroll_to_bottom`
(lines 58-83), with `fuel = max_scrolls - scroll_attempts`.  Each iteration:
increment `scroll_attempts`, issue the scroll script, `sleep(pause)`, measure
the new height (a raise here propagates: only the `find_elements` call at
line 79 sits inside a `try`).  If the height is unchanged: stop when
`time.time() - start_time > timeout`, otherwise `sleep(pause * 2)` and
`continue` (skipping the indicator query).  If the height changed: update
`last_height`, then query the end indicator; a non-empty result breaks, an
exception is logged and the loop continues. -/
def scrollLoop (env : ScrollEnv) (pause timeout : ℚ) :
    Nat → ScrollState → ScrollResult
  | 0, s => ⟨s, false⟩
  | fuel + 1, s =>
    let i := s.attempts + 1
    let c := s.clock + pause
    match env.heights i with
    | .error _ => ⟨⟨s.lastHeight, c, i, s.firstStall, s.loggedQueryErrors⟩, true⟩
    | .ok newHeight =>
      if newHeight = s.lastHeight then
        let stall := s.firstStall.getD c
        if timeout < c then
          ⟨⟨s.lastHeight, c, i, some stall, s.loggedQueryErrors⟩, false⟩
        else
          scrollLoop env pause timeout fuel
            ⟨s.lastHeight, c + pause * 2, i, some stall, s.loggedQueryErrors⟩
      else
        match env.endFound i with
        | .ok true =>
            ⟨⟨newHeight, c, i, s.firstStall, s.loggedQueryErrors⟩, false⟩
        | .ok false =>
            scrollLoop env pause timeout fuel
              ⟨newHeight, c, i, s.firstStall, s.loggedQueryErrors⟩
        | .error _ =>
            scrollLoop env pause timeout fuel
              ⟨newHeight, c, i, s.firstStall, s.loggedQueryErrors + 1⟩

/-- `scroll_to_bottom` (lines 51-85): take the initial height measurement
(line 54; a raise there propagates), record `start_time = 0`, and run the
loop with `scroll_attempts = 0`. -/
def scroll_to_bottom (env : ScrollEnv) (max_scrolls : Nat)
    (pause timeout : ℚ) : ScrollResult :=
  match env.heights 0 with
  | .error _ => ⟨⟨0, 0, 0, none, 0⟩, true⟩
  | .ok h0 => scrollLoop env pause timeout max_scrolls ⟨h0, 0, 0, none, 0⟩

lemma scrollLoop_attempts_le (env : ScrollEnv) (pause timeout : ℚ) :
    ∀ (fuel : Nat) (s : ScrollState),
      (scrollLoop env pause timeout fuel s).state.attempts ≤ s.attempts + fuel := by
  intro fuel
  induction fuel with
  | zero => intro s; simp [scrollLoop]
  | succ n ih =>
    intro s
    rw [scrollLoop]
    cases h : env.heights (s.attempts + 1) with
    | error e => simp
    | ok nh =>
      simp only
      split
      · split
        · simp
        · exact le_trans (ih _) (by simp; omega)
      · cases hq : env.endFound (s.attempts + 1) with
        | error e => exact le_trans (ih _) (by simp; omega)
        | ok b =>
          cases b
          · exact le_trans (ih _) (by simp; omega)
          · simp

/-- Claim C3: for every page behaviour (any sequence of height measurements
and element-query results) and any parameters, `scroll_to_bottom` performs at
most `max_scrolls` scroll iterations and then terminates (the loop counter
`scroll_attempts` at exit is at most `max_scrolls`; termination itself is by
construction of the fuelled loop). -/
theorem C3_max_scrolls_bound (env : ScrollEnv) (max_scrolls : Nat)
    (pause timeout : ℚ) :
    (scroll_to_bottom env max_scrolls pause timeout).state.attempts ≤ max_scrolls := by
  rw [scroll_to_bottom]
  cases h : env.heights 0 with
  | error e => simp
  | ok h0 =>
    simpa using scrollLoop_attempts_le env pause timeout max_scrolls ⟨h0, 0, 0, none, 0⟩

lemma scrollLoop_stall_continue (env : ScrollEnv) (pause timeout : ℚ)
    (fuel : Nat) (s : ScrollState) (nh : Nat)
    (hh : env.heights (s.attempts + 1) = Except.ok nh)
    (heq : nh = s.lastHeight) (hto : ¬ timeout < s.clock + pause) :
    scrollLoop env pause timeout (fuel + 1) s
      = scrollLoop env pause timeout fuel
          ⟨s.lastHeight, s.clock + pause + pause * 2, s.attempts + 1,
            some (s.firstStall.getD (s.clock + pause)), s.loggedQueryErrors⟩ := by
  rw [scrollLoop]
  simp only [hh]
  rw [if_pos heq, if_neg hto]

lemma scrollLoop_stall_break (env : ScrollEnv) (pause timeout : ℚ)
    (fuel : Nat) (s : ScrollState) (nh : Nat)
    (hh : env.heights (s.attempts + 1) = Except.ok nh)
    (heq : nh = s.lastHeight) (hto : timeout < s.clock + pause) :
    scrollLoop env pause timeout (fuel + 1) s
      = ⟨⟨s.lastHeight, s.clock + pause, s.attempts + 1,
          some (s.firstStall.getD (s.clock + pause)), s.loggedQueryErrors⟩, false⟩ := by
  rw [scrollLoop]
  simp only [hh]
  rw [if_pos heq, if_pos hto]

lemma scrollLoop_height_raise (env : ScrollEnv) (pause timeout : ℚ)
    (fuel : Nat) (s : ScrollState)
    (hh : env.heights (s.attempts + 1) = Except.error ()) :
    scrollLoop env pause timeout (fuel + 1) s
      = ⟨⟨s.lastHeight, s.clock + pause, s.attempts + 1,
          s.firstStall, s.loggedQueryErrors⟩, true⟩ := by
  rw [scrollLoop]
  simp only [hh]

/-- Page behaviour whose height never changes (constant `100`) and where the
end indicator is never present; used with `pause = 20`, `timeout = 30`
(reachable via the CLI flag for the pause; `timeout` is the default `30`). -/
def envC4 : ScrollEnv := ⟨fun _ => .ok 100, fun _ => .ok false⟩

/-- Claim C4 counterexample: with `pause = 20` and `timeout = 30` on a page
whose height never changes, the first stall is observed at clock `20` but the
loop only stops at clock `80`, i.e. after `60 > 30` seconds of sustained
no-height-change.  The code compares `time.time() - start_time` where
`start_time` is recorded at the start of scrolling (line 55), not at the
first stall, and the comparison only happens at stall checks, so the
sustained-stall bound of the claim fails. -/
theorem C4_counterexample :
    (scroll_to_bottom envC4 50 20 30).state.firstStall = some 20 ∧
    (scroll_to_bottom envC4 50 20 30).state.clock = 80 ∧
    ¬((scroll_to_bottom envC4 50 20 30).state.clock - (20 : ℚ) ≤ 30) := by
  have e0 : scroll_to_bottom envC4 50 20 30
      = scrollLoop envC4 20 30 50 ⟨100, 0, 0, none, 0⟩ := rfl
  have e1 := scrollLoop_stall_continue envC4 20 30 49 ⟨100, 0, 0, none, 0⟩ 100
    rfl rfl (by norm_num)
  have e2 := scrollLoop_stall_break envC4 20 30 48 ⟨100, 60, 1, some 20, 0⟩ 100
    rfl rfl (by norm_num)
  norm_num at e1 e2
  rw [e0, e1, e2]
  norm_num

lemma scrollLoop_const_clock (env : ScrollEnv) (pause timeout : ℚ) (h : Nat)
    (hh : ∀ i, env.heights i = Except.ok h) (hp : 0 ≤ pause) :
    ∀ (fuel : Nat) (s : ScrollState), s.lastHeight = h →
      s.clock ≤ timeout + 2 * pause →
      (scrollLoop env pause timeout fuel s).state.clock ≤ timeout + 3 * pause := by
  intro fuel
  induction fuel with
  | zero => intro s hs hc; simp only [scrollLoop]; linarith
  | succ n ih =>
    intro s hs hc
    rw [scrollLoop]
    simp only [hh (s.attempts + 1)]
    rw [if_pos hs.symm]
    split
    · show s.clock + pause ≤ timeout + 3 * pause
      linarith
    · rename_i hle
      refine ih _ hs ?_
      show s.clock + pause + pause * 2 ≤ timeout + 2 * pause
      push_neg at hle
      linarith

/-- Claim C4 amended: the stability timeout is measured from the start of
scrolling (`start_time` at line 55), not from the first stall.  When the page
height never changes, the driver terminates with total elapsed time at most
`timeout + 3 * pause` (one stall iteration costs `pause` before the check and
`2 * pause` afterwards), but the sustained no-height-change time before
termination may exceed `timeout`. -/
theorem C4_timeout_from_start (env : ScrollEnv) (max_scrolls : Nat)
    (pause timeout : ℚ) (h : Nat) (hh : ∀ i, env.heights i = Except.ok h)
    (hp : 0 ≤ pause) (ht : 0 ≤ timeout) :
    (scroll_to_bottom env max_scrolls pause timeout).state.clock
      ≤ timeout + 3 * pause := by
  rw [scroll_to_bottom]
  simp only [hh 0]
  refine scrollLoop_const_clock env pause timeout h hh hp max_scrolls
    ⟨h, 0, 0, none, 0⟩ rfl ?_
  show (0 : ℚ) ≤ timeout + 2 * pause
  linarith

/-- Page behaviour with constant height `5`, indicator never present. -/
def envC4w : ScrollEnv := ⟨fun _ => .ok 5, fun _ => .ok false⟩

/-- Witness for `C4_timeout_from_start` at `pause = 1`, `timeout = 5`. -/
theorem C4_timeout_from_start_witness :
    (0 : ℚ) ≤ 1 ∧ (0 : ℚ) ≤ 5 ∧
    (scroll_to_bottom envC4w 50 1 5).state.clock ≤ 5 + 3 * 1 :=
  ⟨by norm_num, by norm_num,
    C4_timeout_from_start envC4w 50 1 5 5 (fun _ => rfl) (by norm_num) (by norm_num)⟩

/-- Page behaviour whose height never changes and where the end-of-content
indicator is present in the DOM on every iteration (any query would return a
non-empty element list). -/
def envC5 : ScrollEnv := ⟨fun _ => .ok 100, fun _ => .ok true⟩

/-- Claim C5 counterexample: with the end indicator present on every
iteration but the height unchanged, the loop runs all `3` of its
`max_scrolls` iterations instead of stopping at the first one: the
`continue` at line 74 skips the indicator query whenever the height did not
change, so the driver does not stop when the indicator is present on a
no-height-change iteration. -/
theorem C5_counterexample :
    envC5.endFound 1 = Except.ok true ∧
    (scroll_to_bottom envC5 3 1 1000).state.attempts = 3 := by
  refine ⟨rfl, ?_⟩
  have e0 : scroll_to_bottom envC5 3 1 1000
      = scrollLoop envC5 1 1000 3 ⟨100, 0, 0, none, 0⟩ := rfl
  have e1 := scrollLoop_stall_continue envC5 1 1000 2 ⟨100, 0, 0, none, 0⟩ 100
    rfl rfl (by norm_num)
  have e2 := scrollLoop_stall_continue envC5 1 1000 1 ⟨100, 3, 1, some 1, 0⟩ 100
    rfl rfl (by norm_num)
  have e3 := scrollLoop_stall_continue envC5 1 1000 0 ⟨100, 6, 2, some 1, 0⟩ 100
    rfl rfl (by norm_num)
  norm_num at e1 e2 e3
  rw [e0, e1, e2, e3]
  rfl

/-- Claim C5 amended: the end-of-content query is only reached on iterations
where the height changed; on such an iteration, if the indicator is found the
driver stops immediately (the iteration it is found in is the last one, and
no exception propagates).  On unchanged-height iterations the indicator is
not queried at all. -/
theorem C5_indicator_stops_on_growth (env : ScrollEnv) (pause timeout : ℚ)
    (fuel : Nat) (s : ScrollState) (nh : Nat)
    (hh : env.heights (s.attempts + 1) = Except.ok nh)
    (hne : nh ≠ s.lastHeight)
    (hq : env.endFound (s.attempts + 1) = Except.ok true) :
    (scrollLoop env pause timeout (fuel + 1) s).state.attempts = s.attempts + 1 ∧
    (scrollLoop env pause timeout (fuel + 1) s).raised = false := by
  constructor
  · rw [scrollLoop]
    simp only [hh, hq]
    rw [if_neg hne]
  · rw [scrollLoop]
    simp only [hh, hq]
    rw [if_neg hne]

/-- Page behaviour with strictly growing heights and the indicator present. -/
def envC5w : ScrollEnv := ⟨fun i => .ok i, fun _ => .ok true⟩

/-- Witness for `C5_indicator_stops_on_growth`: starting from the initial
state, the height grows on iteration 1 and the indicator is present, so the
loop stops after exactly one iteration. -/
theorem C5_indicator_stops_on_growth_witness :
    (scrollLoop envC5w 1 30 5 ⟨0, 0, 0, none, 0⟩).state.attempts = 1 ∧
    (scrollLoop envC5w 1 30 5 ⟨0, 0, 0, none, 0⟩).raised = false := by
  simpa using C5_indicator_stops_on_growth envC5w 1 30 4 ⟨0, 0, 0, none, 0⟩ 1
    rfl (by decide) rfl

/-- Page behaviour where the height script succeeds before the loop and then
raises on iteration 1. -/
def envC6 : ScrollEnv :=
  ⟨fun i => if i = 0 then .ok 50 else .error (), fun _ => .ok false⟩

/-- Claim C6 counterexample: when the height measurement of iteration 1
raises, the exception propagates out of `scroll_to_bottom` (only the
`find_elements` call at line 79 is inside a `try`), aborting the loop after
one iteration instead of logging and continuing. -/
theorem C6_counterexample :
    (scroll_to_bottom envC6 5 1 30).raised = true ∧
    (scroll_to_bottom envC6 5 1 30).state.attempts = 1 := by
  have e0 : scroll_to_bottom envC6 5 1 30
      = scrollLoop envC6 1 30 5 ⟨50, 0, 0, none, 0⟩ := rfl
  have e1 := scrollLoop_height_raise envC6 1 30 4 ⟨50, 0, 0, none, 0⟩ rfl
  rw [e0, e1]
  exact ⟨rfl, rfl⟩

lemma scrollLoop_no_raise (env : ScrollEnv) (pause timeout : ℚ)
    (hh : ∀ i, ∃ h, env.heights i = Except.ok h) :
    ∀ (fuel : Nat) (s : ScrollState),
      (scrollLoop env pause timeout fuel s).raised = false := by
  intro fuel
  induction fuel with
  | zero => intro s; simp [scrollLoop]
  | succ n ih =>
    intro s
    obtain ⟨h, hv⟩ := hh (s.attempts + 1)
    rw [scrollLoop]
    simp only [hv]
    split
    · split
      · rfl
      · exact ih _
    · cases hq : env.endFound (s.attempts + 1) with
      | error e => simp only [hq]; exact ih _
      | ok b =>
        cases b
        · simp only [hq]; exact ih _
        · simp only [hq]

/-- Claim C6 amended: errors of the end-of-content element query are caught
(logged) and the loop continues, but errors of the height measurement are not
caught inside `scroll_to_bottom`: they propagate and abort scrolling.  Hence
whenever every height measurement succeeds, no exception escapes the
function, whatever the element queries do. -/
theorem C6_query_errors_contained (env : ScrollEnv) (max_scrolls : Nat)
    (pause timeout : ℚ) (hh : ∀ i, ∃ h, env.heights i = Except.ok h) :
    (scroll_to_bottom env max_scrolls pause timeout).raised = false := by
  obtain ⟨h0, hv⟩ := hh 0
  rw [scroll_to_bottom]
  simp only [hv]
  exact scrollLoop_no_raise env pause timeout hh max_scrolls _

/-- Page behaviour where every height measurement succeeds but every element
query raises. -/
def envC6w : ScrollEnv := ⟨fun _ => .ok 7, fun _ => .error ()⟩

/-- Witness for `C6_query_errors_contained`: with all height measurements
succeeding and every element query raising, no exception escapes. -/
theorem C6_query_errors_contained_witness :
    (∀ i, ∃ h, envC6w.heights i = Except.ok h) ∧
    (scroll_to_bottom envC6w 10 2 30).raised = false :=
  ⟨fun _ => ⟨7, rfl⟩,
    C6_query_errors_contained envC6w 10 2 30 (fun _ => ⟨7, rfl⟩)⟩

/-- Outcome of `requests.get(url, timeout=10)` followed by
`resp.raise_for_status()` (lines 114-115): a successful response with its
body bytes, a response whose status makes `raise_for_status` raise an
`HTTPError` (a `RequestException`), or a network failure raising a
`RequestException` from `requests.get` itself. -/
inductive HttpOutcome where
  | ok (content : List Nat)
  | badStatus (code : Nat)
  | netError
  deriving DecidableEq

/-- An anchor element found by the link query; `get_attribute("href")`
(line 106) may return no value (`none`) or raise (`Except.error`). -/
structure LinkElem where
  href : Except Unit (Option String)

/-- External collaborators of the download loop: the HTTP client, and the
filesystem (`writeFails p = true` when `open(p, "wb")` or the write at
lines 120-121 raises). -/
structure DlEnv where
  http : String → HttpOutcome
  writeFails : String → Bool

/-- Python `url.split("?")[0]` on the character list: the longest prefix
before the first occurrence of `c`. -/
def takeUntil (c : Char) : List Char → List Char
  | [] => []
  | x :: xs => if x = c then [] else x :: takeUntil c xs

/-- Characters after the last occurrence of `c` (the whole list when `c`
does not occur): `os.path.basename` for POSIX paths when `c = '/'`. -/
def afterLast (c : Char) (l : List Char) : List Char :=
  l.foldl (fun acc x => if x = c then [] else acc ++ [x]) []

/-- `os.path.basename(url.split("?")[0])` (line 117). -/
def derive_name (url : String) : String := ⟨afterLast '/' (takeUntil '?' url.data)⟩

/-- POSIX `os.path.join(a, b)` for one component (line 118): `b` if it is
absolute, otherwise `a ++ b` with a separator inserted unless `a` is empty
or already ends in one. -/
def path_join (a b : String) : String :=
  if b.data.head? = some '/' then b
  else if a.data = [] ∨ a.data.getLast? = some '/' then ⟨a.data ++ b.data⟩
  else ⟨a.data ++ '/' :: b.data⟩

/-- Writing `content` at `path` with `open(path, "wb")` (lines 120-121):
truncates, i.e. replaces, any existing file of that name. -/
def fsWrite (fs : List (String × List Nat)) (p : String) (c : List Nat) :
    List (String × List Nat) :=
  fs.filter (fun e => e.1 != p) ++ [(p, c)]

/-- Contents of the file at `p`, if any. -/
def fsRead (fs : List (String × List Nat)) (p : String) : Option (List Nat) :=
  (fs.find? (fun e => e.1 == p)).map Prod.snd

/-- State of the download loop (lines 99-130): the deduplication set `seen`,
the three counters, the files on disk, the binding status of the Python
local `url` (the `except` handler at line 130 interpolates `url` into its
log message), and a ghost list of fetch attempts. -/
structure DlState where
  seen : List String
  downloaded : Nat
  skipped : Nat
  errors : Nat
  files : List (String × List Nat)
  /-- `true` once the Python local `url` has been assigned. -/
  urlBound : Bool
  /-- ghost: URLs passed to `requests.get`, most recent first. -/
  fetches : List String
  deriving DecidableEq

/-- The `for img in imgs` loop (lines 104-130).  Per iteration: read `href`
(a raise goes to the `except Exception` handler, which increments `errors`
and then formats a log message mentioning `url` — when `url` was never
assigned this raises `UnboundLocalError`, which propagates and aborts the
whole loop); skip an absent, empty or already-seen URL (`if not url or url
in seen`); otherwise add the URL to `seen`, fetch it (a network error or a
`raise_for_status` error increments `errors`), derive the file name and
write the body (a raise while writing increments `errors`); a completed
write increments `downloaded`.  The second component of the result is `true`
when the loop was aborted by the handler raising `UnboundLocalError`. -/
def dlLoop (env : DlEnv) (output_dir : String) :
    List LinkElem → DlState → DlState × Bool
  | [], s => (s, false)
  | l :: rest, s =>
    match l.href with
    | .error _ =>
      if s.urlBound then
        dlLoop env output_dir rest { s with errors := s.errors + 1 }
      else
        ({ s with errors := s.errors + 1 }, true)
    | .ok none =>
      dlLoop env output_dir rest { s with skipped := s.skipped + 1, urlBound := true }
    | .ok (some url) =>
      if url = "" ∨ url ∈ s.seen then
        dlLoop env output_dir rest { s with skipped := s.skipped + 1, urlBound := true }
      else
        let s1 := { s with seen := url :: s.seen, urlBound := true,
                           fetches := url :: s.fetches }
        match env.http url with
        | .netError => dlLoop env output_dir rest { s1 with errors := s1.errors + 1 }
        | .badStatus _ => dlLoop env output_dir rest { s1 with errors := s1.errors + 1 }
        | .ok content =>
          let path := path_join output_dir (derive_name url)
          if env.writeFails path then
            dlLoop env output_dir rest { s1 with errors := s1.errors + 1 }
          else
            dlLoop env output_dir rest
              { s1 with files := fsWrite s1.files path content,
                        downloaded := s1.downloaded + 1 }

/-- `download_images` (lines 87-132) from the point where the link query has
succeeded, starting with the files `fs0` already on disk. -/
def download_images (env : DlEnv) (output_dir : String)
    (imgs : List LinkElem) (fs0 : List (String × List Nat)) : DlState × Bool :=
  dlLoop env output_dir imgs ⟨[], 0, 0, 0, fs0, false, []⟩

/-- Number of links the loop skips (absent, empty, or already-seen href),
read off the link list; `s` accumulates the URLs seen so far. -/
def dupCount : List LinkElem → List String → Nat
  | [], _ => 0
  | l :: rest, s =>
    match l.href with
    | .error _ => dupCount rest s
    | .ok none => dupCount rest s + 1
    | .ok (some u) =>
      if u = "" ∨ u ∈ s then dupCount rest s + 1
      else dupCount rest (u :: s)

/-- Number of fetched URLs whose fetch fails with a network error or an
error status. -/
def failCount (env : DlEnv) : List LinkElem → List String → Nat
  | [], _ => 0
  | l :: rest, s =>
    match l.href with
    | .error _ => failCount env rest s
    | .ok none => failCount env rest s
    | .ok (some u) =>
      if u = "" ∨ u ∈ s then failCount env rest s
      else
        match env.http u with
        | .ok _ => failCount env rest (u :: s)
        | .badStatus _ => failCount env rest (u :: s) + 1
        | .netError => failCount env rest (u :: s) + 1

lemma dlLoop_counts (env : DlEnv) (dir : String) :
    ∀ (imgs : List LinkElem) (s : DlState),
      (∀ l ∈ imgs, ∃ v, l.href = Except.ok v) →
      (∀ p, env.writeFails p = false) →
      (dlLoop env dir imgs s).2 = false ∧
      (dlLoop env dir imgs s).1.skipped = s.skipped + dupCount imgs s.seen ∧
      (dlLoop env dir imgs s).1.errors = s.errors + failCount env imgs s.seen ∧
      (dlLoop env dir imgs s).1.downloaded + (dlLoop env dir imgs s).1.skipped
          + (dlLoop env dir imgs s).1.errors
        = s.downloaded + s.skipped + s.errors + imgs.length := by
  intro imgs
  induction imgs with
  | nil => intro s h1 h2; simp [dlLoop, dupCount, failCount]
  | cons l rest ih =>
    intro s h1 h2
    obtain ⟨v, hv⟩ := h1 l (List.mem_cons_self l rest)
    have h1r : ∀ x ∈ rest, ∃ w, x.href = Except.ok w :=
      fun x hx => h1 x (List.mem_cons_of_mem l hx)
    cases v with
    | none =>
      rw [dlLoop]
      simp only [hv, dupCount, failCount, List.length_cons]
      obtain ⟨ha, hb, hc, hd⟩ := ih { s with skipped := s.skipped + 1, urlBound := true } h1r h2
      refine ⟨ha, ?_, ?_, ?_⟩
      · rw [hb]; simp; omega
      · rw [hc]
      · rw [hd]; simp; omega
    | some u =>
      by_cases hskip : u = "" ∨ u ∈ s.seen
      · rw [dlLoop]
        simp only [hv, dupCount, failCount, List.length_cons, if_pos hskip]
        obtain ⟨ha, hb, hc, hd⟩ := ih { s with skipped := s.skipped + 1, urlBound := true } h1r h2
        refine ⟨ha, ?_, ?_, ?_⟩
        · rw [hb]; simp; omega
        · rw [hc]
        · rw [hd]; simp; omega
      · rw [dlLoop]
        simp only [hv, dupCount, failCount, List.length_cons, if_neg hskip]
        cases hhttp : env.http u with
        | netError =>
          obtain ⟨ha, hb, hc, hd⟩ := ih
            { s with seen := u :: s.seen, urlBound := true,
                     fetches := u :: s.fetches, errors := s.errors + 1 } h1r h2
          refine ⟨ha, ?_, ?_, ?_⟩
          · rw [hb]
          · rw [hc]; simp; omega
          · rw [hd]; simp; omega
        | badStatus code =>
          obtain ⟨ha, hb, hc, hd⟩ := ih
            { s with seen := u :: s.seen, urlBound := true,
                     fetches := u :: s.fetches, errors := s.errors + 1 } h1r h2
          refine ⟨ha, ?_, ?_, ?_⟩
          · rw [hb]
          · rw [hc]; simp; omega
          · rw [hd]; simp; omega
        | ok content =>
          simp only [h2]
          rw [if_neg Bool.false_ne_true]
          obtain ⟨ha, hb, hc, hd⟩ := ih
            { s with seen := u :: s.seen, urlBound := true,
                     fetches := u :: s.fetches,
                     files := fsWrite s.files (path_join dir (derive_name u)) content,
                     downloaded := s.downloaded + 1 } h1r h2
          refine ⟨ha, ?_, ?_, ?_⟩
          · rw [hb]
          · rw [hc]
          · rw [hd]; simp; omega

lemma dlLoop_fetches_nodup (env : DlEnv) (dir : String) :
    ∀ (imgs : List LinkElem) (s : DlState), s.fetches.Nodup →
      (∀ u ∈ s.fetches, u ∈ s.seen) →
      (dlLoop env dir imgs s).1.fetches.Nodup := by
  intro imgs
  induction imgs with
  | nil => intro s hn hsub; simpa [dlLoop] using hn
  | cons l rest ih =>
    intro s hn hsub
    rw [dlLoop]
    cases hv : l.href with
    | error e =>
      dsimp only
      split
      · exact ih _ hn hsub
      · simpa using hn
    | ok v =>
      cases v with
      | none => exact ih _ hn hsub
      | some u =>
        dsimp only
        split
        · exact ih _ hn hsub
        · rename_i hfresh
          push_neg at hfresh
          have hn1 : (u :: s.fetches).Nodup :=
            List.nodup_cons.mpr ⟨fun hmem => hfresh.2 (hsub u hmem), hn⟩
          have hsub1 : ∀ x ∈ u :: s.fetches, x ∈ u :: s.seen := by
            intro x hx
            rcases List.mem_cons.mp hx with h | h
            · exact List.mem_cons.mpr (Or.inl h)
            · exact List.mem_cons.mpr (Or.inr (hsub x h))
          cases hhttp : env.http u with
          | netError => exact ih _ hn1 hsub1
          | badStatus code => exact ih _ hn1 hsub1
          | ok content =>
            dsimp only
            split
            · exact ih _ hn1 hsub1
            · exact ih _ hn1 hsub1

/-- Claim C1: in a single run of the downloader, each distinct URL is fetched
at most once (the list of URLs passed to `requests.get` has no duplicates),
and a link whose URL was already seen this run is not fetched: its iteration
only increments the skipped counter (and marks `url` assigned) and the loop
moves on to the remaining links. -/
theorem C1_no_second_fetch (env : DlEnv) (dir : String)
    (imgs : List LinkElem) (fs0 : List (String × List Nat)) :
    (download_images env dir imgs fs0).1.fetches.Nodup ∧
    (∀ (s : DlState) (l : LinkElem) (rest : List LinkElem) (url : String),
      l.href = Except.ok (some url) → url ∈ s.seen →
      dlLoop env dir (l :: rest) s
        = dlLoop env dir rest { s with skipped := s.skipped + 1, urlBound := true }) := by
  constructor
  · exact dlLoop_fetches_nodup env dir imgs _ List.nodup_nil (by simp)
  · intro s l rest url h1 h2
    rw [dlLoop]
    simp only [h1]
    rw [if_pos (Or.inr h2)]

/-- Trivial downloader environment: every fetch succeeds with an empty body
and no write fails. -/
def envDl : DlEnv := ⟨fun _ => .ok [], fun _ => false⟩

/-- Download-loop state in which the URL `"a"` has already been seen (and
fetched). -/
def seenState : DlState := ⟨["a"], 1, 0, 0, [], true, ["a"]⟩

/-- Witness for `C1_no_second_fetch`, at a concrete run and at a concrete
already-seen URL. -/
theorem C1_no_second_fetch_witness :
    (download_images envDl "images" [⟨.ok (some "a")⟩] []).1.fetches.Nodup ∧
    dlLoop envDl "images" [⟨.ok (some "a")⟩] seenState
      = dlLoop envDl "images" []
          { seenState with skipped := seenState.skipped + 1, urlBound := true } :=
  ⟨(C1_no_second_fetch envDl "images" [⟨.ok (some "a")⟩] []).1,
    (C1_no_second_fetch envDl "images" [] []).2 seenState ⟨.ok (some "a")⟩ [] "a"
      rfl (List.mem_cons_self "a" [])⟩

/-- Claim C2: over `N` candidate links of which `M` are skipped as duplicates
or absent hrefs and `K` fetches fail with a network or HTTP error — i.e. in
a run where reading `href` never raises and file writes succeed, so that
skips and fetch failures are the only anomalies — the final counters are
`skipped = M`, `errored = K` and `downloaded = N - M - K`, and the loop is
not aborted. -/
theorem C2_counter_report (env : DlEnv) (dir : String) (imgs : List LinkElem)
    (fs0 : List (String × List Nat))
    (h1 : ∀ l ∈ imgs, ∃ v, l.href = Except.ok v)
    (h2 : ∀ p, env.writeFails p = false) :
    (download_images env dir imgs fs0).1.skipped = dupCount imgs [] ∧
    (download_images env dir imgs fs0).1.errors = failCount env imgs [] ∧
    (download_images env dir imgs fs0).1.downloaded
      = imgs.length - dupCount imgs [] - failCount env imgs [] := by
  obtain ⟨ha, hb, hc, hd⟩ :=
    dlLoop_counts env dir imgs ⟨[], 0, 0, 0, fs0, false, []⟩ h1 h2
  refine ⟨?_, ?_, ?_⟩
  · simpa [download_images] using hb
  · simpa [download_images] using hc
  · have hb' : (download_images env dir imgs fs0).1.skipped = dupCount imgs [] := by
      simpa [download_images] using hb
    have hc' : (download_images env dir imgs fs0).1.errors = failCount env imgs [] := by
      simpa [download_images] using hc
    have hd' : (download_images env dir imgs fs0).1.downloaded
        + (download_images env dir imgs fs0).1.skipped
        + (download_images env dir imgs fs0).1.errors = imgs.length := by
      simpa [download_images] using hd
    omega

/-- Environment for the `C2_counter_report` witness: fetching `"b"` fails
with a network error, every other fetch succeeds. -/
def envC2 : DlEnv := ⟨fun u => if u = "b" then .netError else .ok [], fun _ => false⟩

/-- Candidate links for the `C2_counter_report` witness: `N = 4` links, of
which `M = 2` are skipped (one duplicate of `"a"`, one absent href) and
`K = 1` fetch fails (`"b"`). -/
def imgsC2 : List LinkElem :=
  [⟨.ok (some "a")⟩, ⟨.ok (some "a")⟩, ⟨.ok none⟩, ⟨.ok (some "b")⟩]

/-- Witness for `C2_counter_report`: the counters report
`downloaded = 4 - 2 - 1 = 1`, `skipped = 2`, `errored = 1`. -/
theorem C2_counter_report_witness :
    (download_images envC2 "images" imgsC2 []).1.skipped = 2 ∧
    (download_images envC2 "images" imgsC2 []).1.errors = 1 ∧
    (download_images envC2 "images" imgsC2 []).1.downloaded = 1 := by
  have h1 : ∀ l ∈ imgsC2, ∃ v, l.href = Except.ok v := by
    intro l hl
    simp only [imgsC2, List.mem_cons, List.not_mem_nil, or_false] at hl
    rcases hl with rfl | rfl | rfl | rfl <;> exact ⟨_, rfl⟩
  obtain ⟨ha, hb, hc⟩ := C2_counter_report envC2 "images" imgsC2 [] h1 (fun _ => rfl)
  refine ⟨?_, ?_, ?_⟩
  · rw [ha]; rfl
  · rw [hb]; rfl
  · rw [hc]; rfl

/-- Claim C7: a candidate URL whose GET fails — network error, or an error
status making `raise_for_status` raise — makes its iteration increment the
errored counter only: no file is written, `downloaded` and `skipped` are
unchanged, and the loop continues with the remaining links. -/
theorem C7_fetch_failure_counted (env : DlEnv) (dir : String) (s : DlState)
    (l : LinkElem) (rest : List LinkElem) (url : String)
    (h1 : l.href = Except.ok (some url)) (h2 : url ≠ "") (h3 : url ∉ s.seen)
    (h4 : env.http url = HttpOutcome.netError ∨
      ∃ c, env.http url = HttpOutcome.badStatus c) :
    dlLoop env dir (l :: rest) s
      = dlLoop env dir rest
          { s with seen := url :: s.seen, urlBound := true,
                   fetches := url :: s.fetches, errors := s.errors + 1 } := by
  rw [dlLoop]
  simp only [h1]
  rw [if_neg (by simp [h2, h3])]
  rcases h4 with h4 | ⟨c, h4⟩ <;> rw [h4]

/-- Environment for the `C7_fetch_failure_counted` witness: every fetch
fails with a network error. -/
def envC7 : DlEnv := ⟨fun _ => .netError, fun _ => false⟩

/-- Witness for `C7_fetch_failure_counted` at the fresh URL `"u"`. -/
theorem C7_fetch_failure_counted_witness :
    dlLoop envC7 "images" [⟨.ok (some "u")⟩] ⟨[], 0, 0, 0, [], false, []⟩
      = dlLoop envC7 "images" []
          ⟨["u"], 0, 0, 1, [], true, ["u"]⟩ :=
  C7_fetch_failure_counted envC7 "images" ⟨[], 0, 0, 0, [], false, []⟩
    ⟨.ok (some "u")⟩ [] "u" rfl (by decide) (by simp) (Or.inl rfl)

lemma fsRead_fsWrite (fs : List (String × List Nat)) (p : String) (c : List Nat) :
    fsRead (fsWrite fs p c) p = some c := by
  induction fs with
  | nil => simp [fsRead, fsWrite]
  | cons e rest ih =>
    by_cases he : e.1 = p
    · simp [fsRead, fsWrite, List.filter_cons, he]
    · simp [fsRead, fsWrite, List.filter_cons, List.find?_cons, he]

/-- Claim C8: the derived file name is the last path component of the URL
with the query string stripped — the spec example URL yields `abc.png` —,
a successfully fetched URL has its body written to
`<output_dir>/<filename>` (with `downloaded` incremented and the loop
continuing), and writing replaces any existing file of the same name. -/
theorem C8_filename_and_write (env : DlEnv) (dir : String) (s : DlState)
    (l : LinkElem) (rest : List LinkElem) (url : String) (content : List Nat)
    (h1 : l.href = Except.ok (some url)) (h2 : url ≠ "") (h3 : url ∉ s.seen)
    (h4 : env.http url = HttpOutcome.ok content)
    (h5 : env.writeFails (path_join dir (derive_name url)) = false) :
    derive_name "https://cdn.discordapp.com/attachments/111/222/abc.png?ex=123"
        = "abc.png" ∧
    dlLoop env dir (l :: rest) s
      = dlLoop env dir rest
          { s with seen := url :: s.seen, urlBound := true,
                   fetches := url :: s.fetches,
                   files := fsWrite s.files (path_join dir (derive_name url)) content,
                   downloaded := s.downloaded + 1 } ∧
    (∀ (fs : List (String × List Nat)) (p : String) (c : List Nat),
      fsRead (fsWrite fs p c) p = some c) := by
  refine ⟨by decide, ?_, fun fs p c => fsRead_fsWrite fs p c⟩
  rw [dlLoop]
  simp only [h1]
  rw [if_neg (by simp [h2, h3])]
  rw [h4]
  simp only [h5]
  rw [if_neg Bool.false_ne_true]

/-- Environment for the `C8_filename_and_write` witness: every fetch returns
the one-byte body `[7]`, no write fails. -/
def envC8 : DlEnv := ⟨fun _ => .ok [7], fun _ => false⟩

/-- Witness for `C8_filename_and_write` at the spec example URL. -/
theorem C8_filename_and_write_witness :
    derive_name "https://cdn.discordapp.com/attachments/111/222/abc.png?ex=123"
        = "abc.png" ∧
    dlLoop envC8 "images"
        [⟨.ok (some "https://cdn.discordapp.com/attachments/111/222/abc.png?ex=123")⟩]
        ⟨[], 0, 0, 0, [], false, []⟩
      = dlLoop envC8 "images" []
          ⟨["https://cdn.discordapp.com/attachments/111/222/abc.png?ex=123"], 1, 0, 0,
            fsWrite [] (path_join "images"
              (derive_name "https://cdn.discordapp.com/attachments/111/222/abc.png?ex=123")) [7],
            true,
            ["https://cdn.discordapp.com/attachments/111/222/abc.png?ex=123"]⟩ ∧
    fsRead (fsWrite [] "images/abc.png" [7]) "images/abc.png" = some [7] := by
  obtain ⟨ha, hb, hc⟩ := C8_filename_and_write envC8 "images"
    ⟨[], 0, 0, 0, [], false, []⟩
    ⟨.ok (some "https://cdn.discordapp.com/attachments/111/222/abc.png?ex=123")⟩ []
    "https://cdn.discordapp.com/attachments/111/222/abc.png?ex=123" [7]
    rfl (by decide) (by simp) rfl rfl
  exact ⟨ha, hb, hc [] "images/abc.png" [7]⟩

/-- Claim C10 (code bug): when the very first link's `get_attribute("href")`
raises, the `except Exception` handler increments `errors` and then formats
a log message interpolating the local `url` (line 130), which is unbound on
the first iteration; the resulting `UnboundLocalError` propagates, aborting
`download_images`, so the second link is never processed and the counters
(`0 + 0 + 1 = 1`) do not partition the `2` candidate links. -/
theorem C10_unbound_url_abort :
    (download_images envDl "images" [⟨.error ()⟩, ⟨.ok (some "x")⟩] []).2 = true ∧
    (download_images envDl "images" [⟨.error ()⟩, ⟨.ok (some "x")⟩] []).1.downloaded
        + (download_images envDl "images" [⟨.error ()⟩, ⟨.ok (some "x")⟩] []).1.skipped
        + (download_images envDl "images" [⟨.error ()⟩, ⟨.ok (some "x")⟩] []).1.errors
      = 1 ∧
    ([⟨.error ()⟩, ⟨.ok (some "x")⟩] : List LinkElem).length = 2 :=
  ⟨rfl, rfl, rfl⟩

/-- Observable effects of the driver phase of `main` (lines 153-171). -/
inductive Event where
  | chromeInit
  | navigate
  | scrolled
  | downloadRun
  | quitBrowser
  deriving DecidableEq

/-- `setup_driver` (lines 24-49): check that the profile directory exists —
raising `FileNotFoundError` (line 31) before any Chrome construction when it
does not — then construct the Chrome driver, which may itself fail.  The
`except` clause logs and re-raises, so failures propagate to the caller.
Also returns the browser-session events performed. -/
def setup_driver (profileExists chromeInitOk : Bool) :
    Except Unit Unit × List Event :=
  if ¬ profileExists then (.error (), [])
  else if chromeInitOk then (.ok (), [.chromeInit])
  else (.error (), [])

/-- The `try/except/finally` of `main` (lines 153-171): build the channel
URL, call `setup_driver`, and only on success navigate (`driver.get`),
scroll, download and quit.  An exception is caught and logged at the top
level, and `driver.quit()` runs only when the local `driver` was assigned,
which never happens when `setup_driver` raised. -/
def main_run (profileExists chromeInitOk : Bool) : List Event :=
  match setup_driver profileExists chromeInitOk with
  | (.error _, evs) => evs
  | (.ok _, evs) => evs ++ [.navigate, .scrolled, .downloadRun, .quitBrowser]

/-- Claim C9: when the profile directory does not exist, setup fails before
any page navigation and before any browser session is opened: whatever the
Chrome construction would have done, the run performs no `chromeInit` and no
`navigate` event. -/
theorem C9_missing_profile (chromeInitOk : Bool) :
    Event.chromeInit ∉ main_run false chromeInitOk ∧
    Event.navigate ∉ main_run false chromeInitOk := by
  cases chromeInitOk <;> simp [main_run, setup_driver]

end DiscordDL
